import Mathlib

/-!
Verification of the duckdb-wasm-ide static file server (src/server.py)
against its specification.

The repository consists of one file, `server.py`: a thin wrapper around
Python's `http.server.SimpleHTTPRequestHandler` that adds two cross-origin
isolation headers to every response via an overridden `end_headers`, plus a
`run_server` / `__main__` block that parses an optional port argument,
binds a TCP server and serves forever until interrupted.

Embedding conventions:
- parts taken directly from `src/server.py` keep the source's names
  (`MyHTTPRequestHandler.end_headers`, `run_server`, `PORT`, `DIRECTORY`,
  the `__main__` logic as `pythonMain`, `portOf`);
- parts of the behavior that live in the Python standard library
  (the static-file request handler, the TCP server, `int()` parsing,
  interpreter exit behavior) are modelled from the spec; each such
  definition carries a doc comment starting `Modelled from the spec:`.
- filesystem paths are lists of path segments; file bodies are lists of
  byte values; headers are (name, value) string pairs.
-/

/-- Modelled from the spec: a filesystem entry is a regular file (with its
byte content and a readability flag, to represent per-request I/O errors
such as permission denied) or a directory. The spec's per-request behavior
distinguishes exactly these cases. -/
inductive Entry where
  | file (content : List Nat) (readable : Bool)
  | dir
deriving DecidableEq

/-- Modelled from the spec: a filesystem is a finite association of
absolute paths (lists of segments from the system root) to entries. -/
def FileSys : Type := List (List String × Entry)

/-- Look an absolute path up in the filesystem model. -/
def lookupFS : FileSys → List String → Option Entry
  | [], _ => none
  | (k, e) :: rest, p => if k = p then some e else lookupFS rest p

/-- A response body: raw file bytes, or a generated directory listing page
for a directory path (the spec treats the listing HTML as library-default,
not bit-exact, so it is represented by the directory it lists). -/
inductive Body where
  | fileContent (bytes : List Nat)
  | listing (dirPath : List String)
deriving DecidableEq

/-- An HTTP response: status code, header list in wire order, optional body. -/
structure HttpResponse where
  status : Nat
  headers : List (String × String)
  body : Option Body
deriving DecidableEq

/-- Split a URL path string into segments at every slash character. -/
def splitSegsAux : List Char → List Char → List String
  | acc, [] => [String.mk acc.reverse]
  | acc, c :: rest =>
    if c = '/' then String.mk acc.reverse :: splitSegsAux [] rest
    else splitSegsAux (c :: acc) rest

/-- Split a request path on the slash separator. -/
def splitSegs (s : String) : List String := splitSegsAux [] s.data

/-- One step of path normalisation: empty and `.` segments are dropped,
`..` pops the last collected segment (and at the root pops nothing, as in
normalising an absolute path), and any other segment is appended. -/
def resolveStep (acc : List String) (s : String) : List String :=
  if s = "" ∨ s = "." then acc
  else if s = ".." then acc.dropLast
  else acc ++ [s]

/-- Modelled from the spec: "Resolve the path against the root directory,
preventing traversal outside the root (standard static-file-server path
containment)". Normalises the request path's segments so that `..` can
never climb above the root. -/
def resolveSegments (segs : List String) : List String :=
  segs.foldl resolveStep []

/-- Modelled from the spec: the library handler's path translation — the
request path is resolved and then anchored under the configured root
directory, so the result is always a path extending the root. Keeps the
name of the library method it models. -/
def translate_path (root : List String) (req : String) : List String :=
  root ++ resolveSegments (splitSegs req)

/-- Characters `int()` strips: space, tab, newline, carriage return,
vertical tab, form feed. -/
def pySpace (c : Char) : Bool :=
  c.toNat = 32 || c.toNat = 9 || c.toNat = 10 ||
  c.toNat = 13 || c.toNat = 11 || c.toNat = 12

/-- Strip leading and trailing whitespace characters. -/
def trimChars (cs : List Char) : List Char :=
  ((cs.dropWhile pySpace).reverse.dropWhile pySpace).reverse

/-- Accumulate decimal digits, allowing a single underscore between two
digits (as Python's `int()` does); any other character rejects. -/
def digitsGo : Nat → List Char → Option Nat
  | acc, [] => some acc
  | acc, c :: rest =>
    if c.isDigit then digitsGo (acc * 10 + (c.toNat - 48)) rest
    else if c = '_' then
      match rest with
      | [] => none
      | d :: rest2 =>
        if d.isDigit then digitsGo (acc * 10 + (d.toNat - 48)) rest2
        else none
    else none

/-- Parse a nonempty unsigned decimal digit string (underscores allowed
between digits only). -/
def parseUDigits : List Char → Option Nat
  | [] => none
  | c :: rest => if c.isDigit then digitsGo (c.toNat - 48) rest else none

/-- Modelled from the spec: "the language runtime's default numeric-parse
failure behavior" — Python's `int(str)`: optional surrounding whitespace,
optional sign, then decimal digits with underscores permitted between
digits; anything else fails (raises `ValueError`, here `none`). -/
def pythonInt (s : String) : Option Int :=
  match trimChars s.data with
  | '+' :: rest => (parseUDigits rest).map (fun n => (n : Int))
  | '-' :: rest => (parseUDigits rest).map (fun n => -(n : Int))
  | cs => (parseUDigits cs).map (fun n => (n : Int))

/-- Source: `PORT = 8000`. -/
def PORT : Int := 8000

/-- Source: `port = int(sys.argv[1]) if len(sys.argv) > 1 else PORT`.
The argument list is full `sys.argv`, program name first. `none` means the
parse raised `ValueError`. -/
def portOf (argv : List String) : Option Int :=
  match argv with
  | _ :: s :: _ => pythonInt s
  | _ => some PORT

/-- Source: `DIRECTORY = Path(__file__).parent` — the parent directory of
the server's own source file, given as a segment path. -/
def DIRECTORY (sourceFile : List String) : List String :=
  sourceFile.dropLast

/-- The server's fixed configuration, built at startup from the command
line, the environment and the location of the server's source file:
the pair (port, root directory). `none` when the port argument fails to
parse. The environment is taken as a parameter only to state that it is
never consulted. -/
def serverConfig (argv : List String) (env : List (String × String))
    (sourceFile : List String) : Option (Int × List String) :=
  let _ := env
  (portOf argv).map (fun p => (p, DIRECTORY sourceFile))

/-- The last segment of a path (empty for the empty path). -/
def lastSeg (p : List String) : String := (p.getLast?).getD ""

/-- The characters after the last dot of a name, if any. -/
def extRec : List Char → Option (List Char)
  | [] => none
  | c :: rest =>
    match extRec rest with
    | some e => some e
    | none => if c = '.' then some rest else none

/-- Modelled from the spec: best-effort standard MIME mapping by file
extension (explicitly not load-bearing or bit-exact per the spec). -/
def contentTypeFor (p : List String) : String :=
  match extRec (lastSeg p).data with
  | some e =>
    let ext := String.mk e
    if ext = "html" then "text/html"
    else if ext = "js" then "text/javascript"
    else if ext = "css" then "text/css"
    else if ext = "wasm" then "application/wasm"
    else if ext = "txt" then "text/plain"
    else if ext = "json" then "application/json"
    else "application/octet-stream"
  | none => "application/octet-stream"

/-- Source (`src/server.py`, lines 20-24): the overridden `end_headers`
sends `Cross-Origin-Embedder-Policy: require-corp` and
`Cross-Origin-Opener-Policy: same-origin` and then delegates to the base
class, which flushes the buffered headers. Given the headers already
buffered for the response, it yields the final wire-order header list. -/
def MyHTTPRequestHandler.end_headers (buffered : List (String × String)) :
    List (String × String) :=
  buffered ++
    [("Cross-Origin-Embedder-Policy", "require-corp"),
     ("Cross-Origin-Opener-Policy", "same-origin")]

/-- Modelled from the spec: the per-request behavior of the library
static-file handler, with the repository's `end_headers` override applied
to every outcome (every response path of the base handler flushes its
headers through `end_headers`).
Per the spec: a regular file gives `200` with the file's bytes,
`Content-Type` by extension and `Content-Length`; a directory gives a
generated listing page; no match gives `404 Not Found`; an I/O error
reading the file gives `500 Internal Server Error`; and every one of
these carries the two cross-origin headers. -/
def handleRequest (fs : FileSys) (root : List String) (req : String) :
    HttpResponse :=
  match lookupFS fs (translate_path root req) with
  | some (Entry.file content true) =>
    { status := 200
      headers := MyHTTPRequestHandler.end_headers
        [("Content-Type", contentTypeFor (translate_path root req)),
         ("Content-Length", toString content.length)]
      body := some (Body.fileContent content) }
  | some (Entry.file _ false) =>
    { status := 500
      headers := MyHTTPRequestHandler.end_headers
        [("Content-Type", "text/html")]
      body := none }
  | some Entry.dir =>
    { status := 200
      headers := MyHTTPRequestHandler.end_headers
        [("Content-Type", "text/html")]
      body := some (Body.listing (translate_path root req)) }
  | none =>
    { status := 404
      headers := MyHTTPRequestHandler.end_headers
        [("Content-Type", "text/html")]
      body := none }

/-- Modelled from the spec: the serve loop handles requests one at a time;
each request is answered independently ("all per-request errors are
contained within the handling of that single request"). A finite trace of
requests yields the corresponding trace of responses. -/
def serveTrace (fs : FileSys) (root : List String) (reqs : List String) :
    List HttpResponse :=
  reqs.map (handleRequest fs root)

/-- Python exceptions relevant to the process model. -/
inductive PyExc where
  | keyboardInterrupt
  | osError
deriving DecidableEq

/-- Modelled from the spec: the possible terminating events of
`run_server` — the bind fails with an `OSError`, or a keyboard interrupt
arrives during the bind, during the banner printing, or during the serve
loop. (Absent any such event the serve loop blocks forever and the process
never exits, so every process exit is covered by one of these.) -/
inductive RunEvent where
  | bindFail
  | interruptDuringBind
  | interruptDuringBanner
  | interruptDuringLoop
deriving DecidableEq

/-- What one call of `run_server` did before ending by an exception:
which exception, whether the socket got bound, how many bind attempts
were made, whether the serve loop was entered, what was printed. -/
structure RunResult where
  exc : PyExc
  bound : Bool
  bindAttempts : Nat
  loopEntered : Bool
  out : List String
deriving DecidableEq

/-- Source (`src/server.py`, lines 27-30): the startup banner printed by
`run_server` once the socket is bound. -/
def banner (port : Int) : List String :=
  ["🦆 DuckDB WASM IDE",
   "Server running at: http://localhost:" ++ toString port,
   "Press Ctrl+C to stop the server",
   ""]

/-- Source (`src/server.py`, lines 26-32): `run_server` creates the
`TCPServer` (one bind attempt, no retry — a bind failure raises `OSError`
out of the function), prints the banner, and calls `serve_forever`; a
keyboard interrupt at any of these points propagates out uncaught, since
`run_server` itself catches nothing. -/
def run_server (port : Int) (ev : RunEvent) : RunResult :=
  match ev with
  | RunEvent.bindFail =>
    { exc := PyExc.osError, bound := false, bindAttempts := 1,
      loopEntered := false, out := [] }
  | RunEvent.interruptDuringBind =>
    { exc := PyExc.keyboardInterrupt, bound := false, bindAttempts := 1,
      loopEntered := false, out := [] }
  | RunEvent.interruptDuringBanner =>
    { exc := PyExc.keyboardInterrupt, bound := true, bindAttempts := 1,
      loopEntered := false, out := [] }
  | RunEvent.interruptDuringLoop =>
    { exc := PyExc.keyboardInterrupt, bound := true, bindAttempts := 1,
      loopEntered := true, out := banner port }

/-- The observable outcome of the whole process: exit status, whether a
socket was ever bound, bind attempts, whether the serve loop was entered,
and the standard output and standard error streams (as lines). -/
structure ProcResult where
  exitCode : Nat
  bound : Bool
  bindAttempts : Nat
  loopEntered : Bool
  stdout : List String
  stderr : List String
deriving DecidableEq

/-- Source (`src/server.py`, lines 34-39), the `__main__` block:
`port = int(sys.argv[1]) if len(sys.argv) > 1 else PORT` runs first, before
any socket exists — a `ValueError` there is uncaught, so the interpreter
prints a traceback and exits with status 1 (modelled from the spec's
"message and non-zero exit"). Otherwise `run_server(port)` runs inside
`try ... except KeyboardInterrupt`: a keyboard interrupt prints
`"\nServer stopped."` (a blank line then the message) and the script falls
off its end, exiting 0; any other exception (such as the bind `OSError`)
is uncaught — traceback and exit status 1. -/
def pythonMain (argv : List String) (ev : RunEvent) : ProcResult :=
  match portOf argv with
  | none =>
    { exitCode := 1, bound := false, bindAttempts := 0,
      loopEntered := false, stdout := [],
      stderr := ["Traceback (most recent call last):",
                 "ValueError: invalid literal for int() with base 10"] }
  | some port =>
    let r := run_server port ev
    match r.exc with
    | PyExc.keyboardInterrupt =>
      { exitCode := 0, bound := r.bound, bindAttempts := r.bindAttempts,
        loopEntered := r.loopEntered,
        stdout := r.out ++ ["", "Server stopped."], stderr := [] }
    | PyExc.osError =>
      { exitCode := 1, bound := r.bound, bindAttempts := r.bindAttempts,
        loopEntered := r.loopEntered, stdout := r.out,
        stderr := ["Traceback (most recent call last):", "OSError"] }

/-- Concrete filesystem for the traversal witness: a sensitive file
outside the root directory `["srv"]`, and one ordinary file inside it. -/
def exFS : FileSys :=
  [(["etc", "passwd"], Entry.file [114] true),
   (["srv", "index.html"], Entry.file [104] true)]

/-- Concrete filesystem for the resilience witness: an unreadable file and
a readable file, both under the root directory `["srv"]`. -/
def fsRes : FileSys :=
  [(["srv", "bad.txt"], Entry.file [1] false),
   (["srv", "good.txt"], Entry.file [104] true)]

/-! Helper lemmas about path normalisation. -/

theorem resolveStep_keeps (acc : List String) (s : String)
    (h : ".." ∉ acc) : ".." ∉ resolveStep acc s := by
  unfold resolveStep
  split
  · exact h
  · split
    · intro hc
      exact h ((List.dropLast_sublist acc).subset hc)
    · rename_i hB
      intro hc
      rcases List.mem_append.mp hc with h1 | h2
      · exact h h1
      · rw [List.mem_singleton] at h2
        exact hB h2.symm

theorem resolveSegments_aux (segs : List String) :
    ∀ acc, ".." ∉ acc → ".." ∉ segs.foldl resolveStep acc := by
  induction segs with
  | nil => intro acc h; simpa using h
  | cons s rest ih => intro acc h; exact ih _ (resolveStep_keeps acc s h)

/-- Normalised request segments never contain a parent-directory step. -/
theorem resolveSegments_no_pardir (segs : List String) :
    ".." ∉ resolveSegments segs :=
  resolveSegments_aux segs [] (by simp)

/-- C1: For every HTTP response the server returns, regardless of status
code (200, 404, directory listing, error), both headers
`Cross-Origin-Embedder-Policy: require-corp` and
`Cross-Origin-Opener-Policy: same-origin` are present in the response. -/
theorem cors_headers_on_every_response (fs : FileSys) (root : List String)
    (req : String) :
    ("Cross-Origin-Embedder-Policy", "require-corp") ∈
      (handleRequest fs root req).headers ∧
    ("Cross-Origin-Opener-Policy", "same-origin") ∈
      (handleRequest fs root req).headers := by
  cases h : lookupFS fs (translate_path root req) with
  | none => simp [handleRequest, h, MyHTTPRequestHandler.end_headers]
  | some e =>
    cases e with
    | file c r =>
      cases r <;> simp [handleRequest, h, MyHTTPRequestHandler.end_headers]
    | dir => simp [handleRequest, h, MyHTTPRequestHandler.end_headers]

/-- C2: For every request whose path attempts to traverse outside the root
directory, the server never returns the contents of a file outside the
root directory: any file content it returns is the content of a file whose
path extends the root (with no parent-directory step below it), and when
the translated path matches nothing under the root the response is 404. -/
theorem path_containment (fs : FileSys) (root : List String) (req : String) :
    (∀ bytes, (handleRequest fs root req).body =
        some (Body.fileContent bytes) →
      ∃ sub, ".." ∉ sub ∧
        lookupFS fs (root ++ sub) = some (Entry.file bytes true)) ∧
    (lookupFS fs (translate_path root req) = none →
      (handleRequest fs root req).status = 404) := by
  constructor
  · intro bytes hb
    cases h : lookupFS fs (translate_path root req) with
    | none => simp [handleRequest, h] at hb
    | some e =>
      cases e with
      | dir => simp [handleRequest, h] at hb
      | file c r =>
        cases r with
        | false => simp [handleRequest, h] at hb
        | true =>
          simp [handleRequest, h] at hb
          exact ⟨resolveSegments (splitSegs req),
            resolveSegments_no_pardir _, hb ▸ h⟩
  · intro hn
    simp [handleRequest, hn]

/-- Witness for C2: the classic traversal request `/../../etc/passwd`
against root `srv`, on a filesystem where `/etc/passwd` exists outside the
root, resolves under the root, matches nothing there, and yields 404. -/
theorem path_containment_witness :
    lookupFS exFS (translate_path ["srv"] "/../../etc/passwd") = none ∧
    (handleRequest exFS ["srv"] "/../../etc/passwd").status = 404 :=
  ⟨by decide,
   (path_containment exFS ["srv"] "/../../etc/passwd").2 (by decide)⟩

/-- C3: a request that hits an I/O error is answered with 500, and the
serve loop continues: the response trace of any request sequence around it
is exactly the per-request responses, unaffected by the failing request,
and a subsequent request for a readable file still succeeds with 200. -/
theorem error_resilience (fs : FileSys) (root : List String)
    (pre : List String) (bad good : String) (post : List String)
    (hbad : (handleRequest fs root bad).status = 500)
    (hgood : ∃ c, lookupFS fs (translate_path root good) =
      some (Entry.file c true)) :
    serveTrace fs root (pre ++ bad :: good :: post) =
      serveTrace fs root pre ++ handleRequest fs root bad ::
        handleRequest fs root good :: serveTrace fs root post ∧
    (handleRequest fs root good).status = 200 := by
  constructor
  · simp [serveTrace]
  · obtain ⟨c, hc⟩ := hgood
    simp [handleRequest, hc]

/-- Witness for C3: on a filesystem with an unreadable `bad.txt` and a
readable `good.txt`, the request for the former yields 500 and the
subsequent request for the latter yields 200. -/
theorem error_resilience_witness :
    (handleRequest fsRes ["srv"] "/bad.txt").status = 500 ∧
    (handleRequest fsRes ["srv"] "/good.txt").status = 200 :=
  ⟨by decide,
   (error_resilience fsRes ["srv"] [] "/bad.txt" "/good.txt" []
     (by decide) ⟨[104], by decide⟩).2⟩

/-- C4: the bound port is determined as: the first positional argument if
given and parsing as an integer; the default 8000 when no argument is
given; and nothing else (in particular no later argument) influences it. -/
theorem port_determination :
    (∀ prog s rest n, pythonInt s = some n →
      portOf (prog :: s :: rest) = some n) ∧
    (∀ prog, portOf [prog] = some 8000) ∧
    portOf [] = some 8000 ∧
    (∀ prog s rest rest2,
      portOf (prog :: s :: rest) = portOf (prog :: s :: rest2)) := by
  refine ⟨?_, ?_, rfl, ?_⟩
  · intro prog s rest n h
    simpa [portOf] using h
  · intro prog
    rfl
  · intro prog s rest rest2
    rfl

/-- Witness for C4: the argument `9090` parses and determines the port. -/
theorem port_determination_witness :
    pythonInt "9090" = some 9090 ∧
    portOf ["server.py", "9090"] = some 9090 :=
  ⟨by decide, port_determination.1 "server.py" "9090" [] 9090 (by decide)⟩

/-- C5: a keyboard interrupt during the serve loop makes the process print
"Server stopped." to standard output and exit with status 0. -/
theorem interrupt_clean_shutdown (argv : List String)
    (h : (portOf argv).isSome = true) :
    (pythonMain argv RunEvent.interruptDuringLoop).exitCode = 0 ∧
    "Server stopped." ∈
      (pythonMain argv RunEvent.interruptDuringLoop).stdout ∧
    (pythonMain argv RunEvent.interruptDuringLoop).loopEntered = true := by
  cases hp : portOf argv with
  | none => rw [hp] at h; simp at h
  | some port => simp [pythonMain, hp, run_server, banner]

/-- Witness for C5: the no-argument invocation, interrupted in the loop. -/
theorem interrupt_clean_shutdown_witness :
    (pythonMain ["server.py"] RunEvent.interruptDuringLoop).exitCode = 0 :=
  (interrupt_clean_shutdown ["server.py"] (by decide)).1

/-- C6: a first argument that does not parse as an integer makes the
process fail at startup before binding any socket, with an error message
and a non-zero exit status; the serve loop is never entered. -/
theorem invalid_port_arg_fatal (prog s : String) (rest : List String)
    (ev : RunEvent) (h : pythonInt s = none) :
    (pythonMain (prog :: s :: rest) ev).exitCode ≠ 0 ∧
    (pythonMain (prog :: s :: rest) ev).bound = false ∧
    (pythonMain (prog :: s :: rest) ev).bindAttempts = 0 ∧
    (pythonMain (prog :: s :: rest) ev).loopEntered = false ∧
    (pythonMain (prog :: s :: rest) ev).stderr ≠ [] := by
  simp [pythonMain, portOf, h]

/-- Witness for C6: the non-numeric argument `abc`. -/
theorem invalid_port_arg_fatal_witness :
    pythonInt "abc" = none ∧
    (pythonMain ["server.py", "abc"] RunEvent.interruptDuringLoop).exitCode
      ≠ 0 :=
  ⟨by decide,
   (invalid_port_arg_fatal "server.py" "abc" []
     RunEvent.interruptDuringLoop (by decide)).1⟩

/-- C7: a bind failure is reported (non-empty standard error) and the
process exits with non-zero status, after exactly one bind attempt and
without entering the serve loop. -/
theorem bind_failure_fatal (argv : List String)
    (h : (portOf argv).isSome = true) :
    (pythonMain argv RunEvent.bindFail).exitCode ≠ 0 ∧
    (pythonMain argv RunEvent.bindFail).loopEntered = false ∧
    (pythonMain argv RunEvent.bindFail).bindAttempts = 1 ∧
    (pythonMain argv RunEvent.bindFail).stderr ≠ [] := by
  cases hp : portOf argv with
  | none => rw [hp] at h; simp at h
  | some port => simp [pythonMain, hp, run_server]

/-- Witness for C7: the no-argument invocation whose bind fails. -/
theorem bind_failure_fatal_witness :
    (pythonMain ["server.py"] RunEvent.bindFail).exitCode ≠ 0 :=
  (bind_failure_fatal ["server.py"] (by decide)).1

/-- C8: the root directory is exactly the parent directory of the server's
own source file, whenever the configuration is built at all, and neither
the command line nor the environment changes it. -/
theorem root_directory_fixed (argv : List String)
    (env env2 : List (String × String)) (sourceFile : List String) :
    (∀ p d, serverConfig argv env sourceFile = some (p, d) →
      d = sourceFile.dropLast) ∧
    serverConfig argv env sourceFile = serverConfig argv env2 sourceFile := by
  constructor
  · intro p d h
    cases hp : portOf argv with
    | none => simp [serverConfig, hp] at h
    | some q =>
      simp [serverConfig, hp, DIRECTORY] at h
      exact h.2.symm
  · rfl

/-- Witness for C8: a concrete source location `/home/user/server.py`
gives the root directory `/home/user`. -/
theorem root_directory_fixed_witness :
    ["home", "user"] = (["home", "user", "server.py"] : List String).dropLast :=
  (root_directory_fixed ["server.py"] [("PORT", "9")] []
      ["home", "user", "server.py"]).1
    8000 ["home", "user"] (by decide)

/-- C9: a keyboard interrupt anywhere inside run_server — during the bind,
during the banner printing before the serve loop, or during the serve loop
itself — is caught, prints "Server stopped.", and exits with status 0. -/
theorem interrupt_before_loop_clean_shutdown (argv : List String)
    (ev : RunEvent) (hp : (portOf argv).isSome = true)
    (hev : ev = RunEvent.interruptDuringBind ∨
      ev = RunEvent.interruptDuringBanner ∨
      ev = RunEvent.interruptDuringLoop) :
    (pythonMain argv ev).exitCode = 0 ∧
    "Server stopped." ∈ (pythonMain argv ev).stdout := by
  cases h : portOf argv with
  | none => rw [h] at hp; simp at hp
  | some port =>
    rcases hev with rfl | rfl | rfl <;>
      simp [pythonMain, h, run_server, banner]

/-- Witness for C9: interrupt arriving during the bind, before the serve
loop is entered, still exits with status 0. -/
theorem interrupt_before_loop_clean_shutdown_witness :
    (pythonMain ["server.py"] RunEvent.interruptDuringBind).exitCode = 0 :=
  (interrupt_before_loop_clean_shutdown ["server.py"]
    RunEvent.interruptDuringBind (by decide) (Or.inl rfl)).1

/-- C10: with two or more command-line arguments, everything after the
first is ignored: the process behaves identically for any tail, and the
port depends only on the first argument. -/
theorem extra_args_ignored (prog a : String) (rest rest2 : List String)
    (ev : RunEvent) :
    pythonMain (prog :: a :: rest) ev = pythonMain (prog :: a :: rest2) ev ∧
    portOf (prog :: a :: rest) = pythonInt a :=
  ⟨rfl, rfl⟩
